import Mathlib

/-
Verification of the policy-as-code engine of the k8s-mcp repository
(`PolicyEngine` and its helpers).  The engine evaluates policy rules
against JSON-shaped workload documents, classifies failures into
blocking violations and warnings, applies auto-remediation routines,
and aggregates per-resource results into a compliance report.

Modelling conventions:
- JSON-shaped documents are a tagged value tree `JValue`; the JavaScript
  value `undefined` is `Option.none` wherever a lookup or resolver can
  produce it, while JSON `null` is the explicit `JValue.vNull`.
- Number literals occurring inside documents are modelled as integers;
  quantity arithmetic (`parseResourceValue`) is carried out in `Rat`,
  with `Option.none` standing for the JavaScript `NaN` result of a
  failed `parseInt` (a comparison against `NaN` is always false).
- The wall-clock timestamp placed on each violation and report, the
  Kubernetes transport (read/list/replace of deployments) and the
  logging output are external collaborators and are not part of the
  modelled state; the remediation loop is modelled on the document it
  would have fetched, returning the document it would write back.
-/

set_option maxRecDepth 20000

/-- JSON-shaped document values, as traversed by the engine.  Objects are
insertion-ordered association lists, mirroring JavaScript object key order. -/
inductive JValue where
  | vNull : JValue
  | vBool : Bool → JValue
  | vNum : Int → JValue
  | vStr : String → JValue
  | vArr : List JValue → JValue
  | vObj : List (String × JValue) → JValue
deriving Repr

/-- JavaScript truthiness of a defined value (`NaN` does not arise: document
numbers are integers). -/
def truthy : JValue → Bool
  | .vNull => false
  | .vBool b => b
  | .vNum n => n != 0
  | .vStr s => s != ""
  | .vArr _ => true
  | .vObj _ => true

/-- Truthiness of a possibly-`undefined` value. -/
def truthyOpt : Option JValue → Bool
  | none => false
  | some v => truthy v

/-- First binding of a key in an association list (JavaScript objects have
unique keys; on duplicate keys the first binding is the visible one). -/
def assocGet : List (String × JValue) → String → Option JValue
  | [], _ => none
  | (k', v) :: rest, k => if k' = k then some v else assocGet rest k

/-- JavaScript property read `v[k]`: `undefined` on anything but an object
with that key.  (Exotic built-in properties of primitives, such as string
`length`, are outside the modelled fragment; no rule path touches them.) -/
def objGet : JValue → String → Option JValue
  | .vObj fs, k => assocGet fs k
  | _, _ => none

/-- JavaScript property assignment `o[k] = v` on an object: overwrite the
first binding of `k`, or append a new binding.  Assignment targets that are
not objects are left unchanged (the source never reaches that case on the
documents satisfying the resource-document contract). -/
def objSetFields : List (String × JValue) → String → JValue → List (String × JValue)
  | [], k, v => [(k, v)]
  | (k', w) :: rest, k, v => if k' = k then (k, v) :: rest else (k', w) :: objSetFields rest k v

def objSet : JValue → String → JValue → JValue
  | .vObj fs, k, v => .vObj (objSetFields fs k v)
  | x, _, _ => x

/-- JavaScript `delete o[k]`: remove the binding of `k`. -/
def objDeleteFields : List (String × JValue) → String → List (String × JValue)
  | [], _ => []
  | (k', w) :: rest, k => if k' = k then objDeleteFields rest k else (k', w) :: objDeleteFields rest k

def objDelete : JValue → String → JValue
  | .vObj fs, k => .vObj (objDeleteFields fs k)
  | x, _ => x

/-- Splitting a string on a non-empty separator, the semantics of the
JavaScript `String.prototype.split` used by the field resolver.  Runs on
character lists with explicit fuel so that every use is structurally
recursive and evaluable. -/
def jsSplitAux (sep : List Char) : Nat → List Char → List Char → List (List Char)
  | 0, l, cur => [(cur.reverse ++ l)]
  | _ + 1, [], cur => [cur.reverse]
  | fuel + 1, c :: rest, cur =>
    if sep.isPrefixOf (c :: rest) then
      cur.reverse :: jsSplitAux sep fuel (List.drop sep.length (c :: rest)) []
    else
      jsSplitAux sep fuel rest (c :: cur)

def jsSplit (s sep : String) : List String :=
  (jsSplitAux sep.data (s.data.length + 1) s.data []).map String.mk

def containsSeq (needle : List Char) : List Char → Bool
  | [] => needle.isEmpty
  | c :: rest => needle.isPrefixOf (c :: rest) || containsSeq needle rest

/-- `a.includes(b)`: substring containment test. -/
def jsIncludes (a b : String) : Bool :=
  containsSeq b.data a.data

def jsEndsWith (s suf : String) : Bool :=
  suf.data.isSuffixOf s.data

/-- Drop the last `n` characters (`String.prototype.slice(0, -n)`). -/
def jsDropRight (s : String) (n : Nat) : String :=
  String.mk (s.data.take (s.data.length - n))

def digitsVal (ds : List Char) : Nat :=
  ds.foldl (fun a c => a * 10 + (c.toNat - 48)) 0

/-- JavaScript `parseInt(s)` in radix 10: optional sign followed by leading
digits; `none` is the `NaN` result.  (Radix prefixes do not occur in
resource quantity strings.) -/
def jsParseInt (s : String) : Option Int :=
  let cs := s.data.dropWhile (fun c => c.isWhitespace)
  let signed : Int × List Char :=
    match cs with
    | '-' :: r => (-1, r)
    | '+' :: r => (1, r)
    | r => (1, r)
  let ds := signed.2.takeWhile (fun c => c.isDigit)
  if ds.isEmpty then none else some (signed.1 * (digitsVal ds : Int))

/-- JavaScript `parseFloat(s)`: optional sign, integer digits, optional
fractional digits; `none` is the `NaN` result.  Exponent notation does not
occur in resource quantity strings and is outside the modelled fragment. -/
def jsParseFloat (s : String) : Option Rat :=
  let cs := s.data.dropWhile (fun c => c.isWhitespace)
  let signed : Rat × List Char :=
    match cs with
    | '-' :: r => (-1, r)
    | '+' :: r => (1, r)
    | r => (1, r)
  let intDs := signed.2.takeWhile (fun c => c.isDigit)
  let rest := signed.2.drop intDs.length
  let fracDs :=
    match rest with
    | '.' :: r => r.takeWhile (fun c => c.isDigit)
    | _ => []
  if intDs.isEmpty && fracDs.isEmpty then none
  else some (signed.1 * ((digitsVal intDs : Rat) + (digitsVal fracDs : Rat) / ((10 : Rat) ^ fracDs.length)))

/-- `getNestedValue`: resolve a dotted path, stepping through object
properties; a falsy intermediate value (or a property miss) yields
`undefined`, exactly as `current && current[key] !== undefined ?
current[key] : undefined` does. -/
def getNestedValue (obj : JValue) (path : String) : Option JValue :=
  (jsSplit path ".").foldl
    (fun current key =>
      match current with
      | none => none
      | some v => if truthy v then objGet v key else none)
    (some obj)

/-- Definedness test used inside the array projection: the item value at the
suffix path is neither `undefined` nor `null`. -/
def definedAtSuffix (remainingPath : String) (item : JValue) : Bool :=
  let itemValue :=
    if remainingPath ≠ "" then getNestedValue item (String.mk (remainingPath.data.drop 1))
    else some item
  match itemValue with
  | none => false
  | some .vNull => false
  | some _ => true

/-- `getFieldValue`: dotted-path resolution with the `[*]` array-projection
handling.  When the path contains `[*]`, the prefix is resolved; if it is an
array the result is the single boolean "some element has a defined value at
the suffix path", and otherwise the boolean `false`. -/
def getFieldValue (obj : JValue) (field : String) : Option JValue :=
  match jsSplit field "[*]" with
  | [] => getNestedValue obj field
  | [_] => getNestedValue obj field
  | arrayPath :: remainingPath :: _ =>
    match getNestedValue obj arrayPath with
    | some (.vArr arrayValue) =>
      some (.vBool (arrayValue.any (fun item => definedAtSuffix remainingPath item)))
    | _ => some (.vBool false)

/-- `parseResourceValue`: quantity parsing for `greater_than`/`less_than`.
Numbers pass through; an `m` suffix is the leading integer; `Ki`/`Mi`/`Gi`
multiply by powers of 1024; other strings parse as a decimal with `NaN`
defaulting to 0; any other value is 0.  `none` is a `NaN` outcome, which
makes every comparison false. -/
def parseResourceValue : Option JValue → Option Rat
  | some (.vNum n) => some (n : Rat)
  | some (.vStr v) =>
    if jsEndsWith v "m" then (jsParseInt (jsDropRight v 1)).map (fun i => (i : Rat))
    else if jsEndsWith v "Ki" then (jsParseInt (jsDropRight v 2)).map (fun i => (i : Rat) * 1024)
    else if jsEndsWith v "Mi" then (jsParseInt (jsDropRight v 2)).map (fun i => (i : Rat) * 1024 * 1024)
    else if jsEndsWith v "Gi" then (jsParseInt (jsDropRight v 2)).map (fun i => (i : Rat) * 1024 * 1024 * 1024)
    else some ((jsParseFloat v).getD 0)
  | _ => some 0

/-- Numeric comparison with `NaN` absorbing (`NaN < x` and `x < NaN` are
false in JavaScript). -/
def ratLtOpt : Option Rat → Option Rat → Bool
  | some a, some b => a < b
  | _, _ => false

def ratGtOpt : Option Rat → Option Rat → Bool
  | some a, some b => b < a
  | _, _ => false

mutual

/-- String conversion of a defined value, as `String(x)` produces it.
Arrays join their recursively converted elements with commas (with `null`
elements contributing the empty string); objects print as
`[object Object]`. -/
def jsStringOfVal : JValue → String
  | .vNull => "null"
  | .vBool b => if b then "true" else "false"
  | .vNum n => toString n
  | .vStr s => s
  | .vArr xs => String.intercalate "," (jsStrElems xs)
  | .vObj _ => "[object Object]"

def jsStrElems : List JValue → List String
  | [] => []
  | .vNull :: rest => "" :: jsStrElems rest
  | x :: rest => jsStringOfVal x :: jsStrElems rest

end

/-- `String(x)` including the `undefined` case. -/
def jsString : Option JValue → String
  | none => "undefined"
  | some v => jsStringOfVal v

/-- Strict equality `===` between a resolved field value and a condition
literal.  Primitives compare structurally; object and array operands come
from distinct object graphs (rule catalog vs. resource document), so the
reference comparison is false. -/
def jsStrictEq : Option JValue → JValue → Bool
  | some .vNull, .vNull => true
  | some (.vBool a), .vBool b => a == b
  | some (.vNum a), .vNum b => a == b
  | some (.vStr a), .vStr b => a == b
  | _, _ => false

/-- Model of the JavaScript `RegExp` collaborator, restricted to the
anchored literal-alternation patterns used by the rule catalog:
an optional leading `^` anchor, an optional single parenthesised
alternation of literals, with `\` escaping the following character.
Other patterns degrade to a literal substring test. -/
def regexUnescape : List Char → List Char
  | [] => []
  | '\\' :: c :: rest => c :: regexUnescape rest
  | c :: rest => c :: regexUnescape rest

def jsRegexTest (pat s : String) : Bool :=
  let anchored := pat.data.take 1 == ['^']
  let body := if anchored then pat.data.drop 1 else pat.data
  let alts : List (List Char) :=
    match body with
    | '(' :: rest =>
      if rest.getLast? = some ')' then
        (jsSplitAux ['|'] (rest.length + 1) (rest.dropLast) []).map regexUnescape
      else [regexUnescape body]
    | _ => [regexUnescape body]
  if anchored then alts.any (fun a => a.isPrefixOf s.data)
  else alts.any (fun a => containsSeq a s.data)

/-- A `PolicyCondition`: a field-path test.  The operator is kept as a
string, as the runtime places no guard on the operator of a custom rule
loaded from configuration; an unrecognised operator falls into the
default branch of the evaluator. -/
structure PolicyCondition where
  field : String
  operator : String
  value : JValue
  description : Option String := none

/-- A `PolicyAction`.  `autoFix` and `fixAction` are optional exactly as in
the source interface. -/
structure PolicyAction where
  type : String
  message : String
  autoFix : Option Bool := none
  fixAction : Option String := none

/-- A `PolicyRule`. -/
structure PolicyRule where
  id : String
  name : String
  description : String
  severity : String
  category : String
  enabled : Bool
  scope : String
  conditions : List PolicyCondition
  actions : List PolicyAction
  metadata : Option JValue := none

/-- A `PolicyViolation` record.  The wall-clock `timestamp` written by the
source is external input and not part of the modelled record. -/
structure PolicyViolation where
  ruleId : String
  ruleName : String
  severity : String
  category : String
  resKind : JValue
  resName : JValue
  resNamespace : Option JValue
  message : String
  field : String
  currentValue : Option JValue
  suggestedValue : Option JValue
  canAutoFix : Bool
  metadata : Option JValue

/-- Result of `evaluateCondition`. -/
structure CondResult where
  passed : Bool
  currentValue : Option JValue := none
  suggestedValue : Option JValue := none

/-- The operator dispatch of `evaluateCondition`, applied to the already
resolved field value.  The default branch mirrors the source `default:
return { passed: false, currentValue: fieldValue }`. -/
def condOpResult (operator : String) (value : JValue) (fieldValue : Option JValue) : CondResult :=
  if operator = "equals" then
    { passed := jsStrictEq fieldValue value
      currentValue := fieldValue
      suggestedValue := some value }
  else if operator = "not_equals" then
    { passed := !jsStrictEq fieldValue value
      currentValue := fieldValue }
  else if operator = "contains" then
    { passed := jsIncludes (jsString fieldValue) (jsStringOfVal value)
      currentValue := fieldValue }
  else if operator = "not_contains" then
    { passed := !jsIncludes (jsString fieldValue) (jsStringOfVal value)
      currentValue := fieldValue }
  else if operator = "greater_than" then
    { passed := ratGtOpt (parseResourceValue fieldValue) (parseResourceValue (some value))
      currentValue := fieldValue
      suggestedValue := some value }
  else if operator = "less_than" then
    { passed := ratLtOpt (parseResourceValue fieldValue) (parseResourceValue (some value))
      currentValue := fieldValue
      suggestedValue := some value }
  else if operator = "regex_match" then
    { passed := jsRegexTest (jsStringOfVal value) (jsString fieldValue)
      currentValue := fieldValue }
  else if operator = "exists" then
    { passed :=
        match fieldValue with
        | none => false
        | some .vNull => false
        | some _ => true
      currentValue := fieldValue }
  else if operator = "not_exists" then
    { passed :=
        match fieldValue with
        | none => true
        | some .vNull => true
        | some _ => false
      currentValue := fieldValue }
  else
    { passed := false, currentValue := fieldValue }

/-- `evaluateCondition`: resolve the field path of the condition and apply the
operator to the resolved value. -/
def evaluateCondition (condition : PolicyCondition) (resource : JValue) : CondResult :=
  condOpResult condition.operator condition.value (getFieldValue resource condition.field)

/-- The `resource.kind` defaulting idiom and companions: JavaScript `||`
defaulting on a possibly-`undefined` value. -/
def jsOrDefault (v : Option JValue) (dflt : JValue) : JValue :=
  match v with
  | some x => if truthy x then x else dflt
  | none => dflt

/-- Optional chaining `a?.b` on a possibly-`undefined` base. -/
def optChain (v : Option JValue) (k : String) : Option JValue :=
  match v with
  | none => none
  | some .vNull => none
  | some x => objGet x k

/-- The violation record built by `evaluateRule` for one failing
condition. -/
def mkViolation (rule : PolicyRule) (resource : JValue) (condition : PolicyCondition)
    (result : CondResult) : PolicyViolation :=
  { ruleId := rule.id
    ruleName := rule.name
    severity := rule.severity
    category := rule.category
    resKind := jsOrDefault (objGet resource "kind") (.vStr "Deployment")
    resName := jsOrDefault (optChain (objGet resource "metadata") "name") (.vStr "Unknown")
    resNamespace := optChain (objGet resource "metadata") "namespace"
    message :=
      match rule.actions.head? with
      | some a => if a.message ≠ "" then a.message else rule.description
      | none => rule.description
    field := condition.field
    currentValue := result.currentValue
    suggestedValue := result.suggestedValue
    canAutoFix := rule.actions.any (fun action => action.autoFix == some true)
    metadata := rule.metadata }

/-- `evaluateRule`: one violation record per failing condition. -/
def evaluateRule (rule : PolicyRule) (resource : JValue) : List PolicyViolation :=
  rule.conditions.foldl
    (fun violations condition =>
      let result := evaluateCondition condition resource
      if result.passed then violations
      else violations ++ [mkViolation rule resource condition result])
    []

/-- The per-rule classification test: at least one `deny` action. -/
def hasDenyAction (rule : PolicyRule) : Bool :=
  rule.actions.any (fun action => action.type == "deny")

/-- The grouping key: the property value, defaulting to `unknown` when falsy. -/
def groupKey (s : String) : String := if s = "" then "unknown" else s

def bumpBy (acc : List (String × Nat)) (k : String) (n : Nat) : List (String × Nat) :=
  if acc.any (fun p => p.1 == k) then
    acc.map (fun p => if p.1 == k then (p.1, p.2 + n) else p)
  else acc ++ [(k, n)]

/-- `groupBy`: tally of records by a string property. -/
def groupBy (keys : List String) : List (String × Nat) :=
  keys.foldl (fun acc k => bumpBy acc (groupKey k) 1) []

structure EvalSummary where
  totalRules : Nat
  passedRules : Int
  failedRules : Nat
  violationsBySeverity : List (String × Nat)
  violationsByCategory : List (String × Nat)

structure PolicyEvaluationResult where
  passed : Bool
  violations : List PolicyViolation
  warnings : List PolicyViolation
  summary : EvalSummary

/-- The enabled-and-scope-matching filter applied at the start of
`evaluateResource` (the effective rule set for a resource type). -/
def enabledRulesFor (rules : List PolicyRule) (resourceType : String) : List PolicyRule :=
  rules.filter (fun rule => rule.enabled && rule.scope == resourceType)

/-- `evaluateResource`: run every enabled, scope-matching rule and bucket
the failing conditions of each rule into blocking violations (rule has a `deny`
action) or warnings (otherwise). -/
def evaluateResource (rules : List PolicyRule) (resource : JValue)
    (resourceType : String) : PolicyEvaluationResult :=
  let enabledRules := enabledRulesFor rules resourceType
  let buckets :=
    enabledRules.foldl
      (fun (buckets : List PolicyViolation × List PolicyViolation) rule =>
        let ruleViolations := evaluateRule rule resource
        if hasDenyAction rule then (buckets.1 ++ ruleViolations, buckets.2)
        else (buckets.1, buckets.2 ++ ruleViolations))
      ([], [])
  let violations := buckets.1
  let warnings := buckets.2
  let totalRules := enabledRules.length
  let failedRules := ((violations ++ warnings).map (fun v => v.ruleId)).dedup.length
  { passed := violations.length == 0
    violations := violations
    warnings := warnings
    summary :=
      { totalRules := totalRules
        passedRules := (totalRules : Int) - (failedRules : Int)
        failedRules := failedRules
        violationsBySeverity := groupBy ((violations ++ warnings).map (fun v => v.severity))
        violationsByCategory := groupBy ((violations ++ warnings).map (fun v => v.category)) } }

/-- The nine built-in default rules of `loadDefaultPolicies`, verbatim. -/
def sec001 : PolicyRule :=
  { id := "sec-001"
    name := "Require Security Context"
    description := "All containers must have a security context defined"
    severity := "high"
    category := "security"
    enabled := true
    scope := "deployment"
    conditions :=
      [{ field := "spec.template.spec.containers[*].securityContext"
         operator := "exists"
         value := .vBool true
         description := some "Security context must be defined for all containers" }]
    actions :=
      [{ type := "warn"
         message := "Container is missing security context. This is a security risk."
         autoFix := some true
         fixAction := some "add_default_security_context" }] }

def sec002 : PolicyRule :=
  { id := "sec-002"
    name := "Prohibit Privileged Containers"
    description := "Containers must not run in privileged mode"
    severity := "critical"
    category := "security"
    enabled := true
    scope := "deployment"
    conditions :=
      [{ field := "spec.template.spec.containers[*].securityContext.privileged"
         operator := "not_equals"
         value := .vBool true
         description := some "Privileged containers are not allowed" }]
    actions :=
      [{ type := "deny"
         message := "Privileged containers are prohibited for security reasons."
         autoFix := some true
         fixAction := some "remove_privileged_flag" }] }

def sec003 : PolicyRule :=
  { id := "sec-003"
    name := "Require Non-Root User"
    description := "Containers should not run as root user"
    severity := "high"
    category := "security"
    enabled := true
    scope := "deployment"
    conditions :=
      [{ field := "spec.template.spec.containers[*].securityContext.runAsNonRoot"
         operator := "equals"
         value := .vBool true
         description := some "Containers must run as non-root user" }]
    actions :=
      [{ type := "warn"
         message := "Container should run as non-root user for better security."
         autoFix := some true
         fixAction := some "set_non_root_user" }] }

def res001 : PolicyRule :=
  { id := "res-001"
    name := "Require Resource Limits"
    description := "All containers must have CPU and memory limits"
    severity := "medium"
    category := "performance"
    enabled := true
    scope := "deployment"
    conditions :=
      [{ field := "spec.template.spec.containers[*].resources.limits.cpu"
         operator := "exists"
         value := .vBool true
         description := some "CPU limits must be defined" },
       { field := "spec.template.spec.containers[*].resources.limits.memory"
         operator := "exists"
         value := .vBool true
         description := some "Memory limits must be defined" }]
    actions :=
      [{ type := "warn"
         message := "Container is missing resource limits. This can lead to resource contention."
         autoFix := some true
         fixAction := some "add_default_resource_limits" }] }

def res002 : PolicyRule :=
  { id := "res-002"
    name := "Reasonable CPU Limits"
    description := "CPU limits should be reasonable (not more than 2 cores for most workloads)"
    severity := "medium"
    category := "cost"
    enabled := true
    scope := "deployment"
    conditions :=
      [{ field := "spec.template.spec.containers[*].resources.limits.cpu"
         operator := "less_than"
         value := .vStr "2000m"
         description := some "CPU limits should typically be under 2 cores" }]
    actions :=
      [{ type := "warn"
         message := "High CPU limits detected. Consider if this is necessary for cost optimization." }] }

def ops001 : PolicyRule :=
  { id := "ops-001"
    name := "Require Health Checks"
    description := "Deployments should have readiness and liveness probes"
    severity := "medium"
    category := "operations"
    enabled := true
    scope := "deployment"
    conditions :=
      [{ field := "spec.template.spec.containers[*].readinessProbe"
         operator := "exists"
         value := .vBool true
         description := some "Readiness probe should be defined" },
       { field := "spec.template.spec.containers[*].livenessProbe"
         operator := "exists"
         value := .vBool true
         description := some "Liveness probe should be defined" }]
    actions :=
      [{ type := "warn"
         message := "Missing health checks. This affects reliability and rolling updates."
         autoFix := some true
         fixAction := some "add_default_health_checks" }] }

def ops002 : PolicyRule :=
  { id := "ops-002"
    name := "Require Labels"
    description := "Deployments must have standard labels for observability"
    severity := "low"
    category := "operations"
    enabled := true
    scope := "deployment"
    conditions :=
      [{ field := "metadata.labels.app"
         operator := "exists"
         value := .vBool true
         description := some "app label is required" },
       { field := "metadata.labels.version"
         operator := "exists"
         value := .vBool true
         description := some "version label is required" },
       { field := "metadata.labels.component"
         operator := "exists"
         value := .vBool true
         description := some "component label is required" }]
    actions :=
      [{ type := "warn"
         message := "Missing required labels for proper resource management and observability." }] }

def comp001 : PolicyRule :=
  { id := "comp-001"
    name := "Image Registry Compliance"
    description := "Images must come from approved registries"
    severity := "high"
    category := "compliance"
    enabled := true
    scope := "deployment"
    conditions :=
      [{ field := "spec.template.spec.containers[*].image"
         operator := "regex_match"
         value := .vStr "^(ghcr\\.io|registry\\.company\\.com|docker\\.io/library)"
         description := some "Images must come from approved registries" }]
    actions :=
      [{ type := "deny"
         message := "Image must come from an approved registry for security and compliance." }] }

def comp002 : PolicyRule :=
  { id := "comp-002"
    name := "Prohibit Latest Tag"
    description := "Images should not use latest tag for reproducibility"
    severity := "medium"
    category := "compliance"
    enabled := true
    scope := "deployment"
    conditions :=
      [{ field := "spec.template.spec.containers[*].image"
         operator := "not_contains"
         value := .vStr ":latest"
         description := some "latest tag should not be used" }]
    actions :=
      [{ type := "warn"
         message := "Using latest tag reduces reproducibility. Use specific version tags instead." }] }

def defaultPolicies : List PolicyRule :=
  [sec001, sec002, sec003, res001, res002, ops001, ops002, comp001, comp002]

/-- `Map.set` on the insertion-ordered rule map: replace the rule at its
existing position, or append. -/
def rulesSet (rules : List PolicyRule) (rule : PolicyRule) : List PolicyRule :=
  if rules.any (fun r => r.id == rule.id) then
    rules.map (fun r => if r.id == rule.id then rule else r)
  else rules ++ [rule]

/-- `loadDefaultPolicies`: register each default rule by id. -/
def loadDefaultRules : List PolicyRule :=
  defaultPolicies.foldl rulesSet []

/-- A `ruleOverrides` entry. -/
structure RuleOverride where
  enabled : Option Bool := none
  severity : Option String := none
  enforcement : Option String := none

/-- A `categories` entry.  Enforcement and autoFix are carried but do not
affect catalog membership. -/
structure CategorySettings where
  enabled : Bool
  enforcement : String := "advisory"
  autoFix : Bool := false

/-- The parts of a `PolicyConfiguration` read by `applyConfiguration`.
The organization, global and notifications sections are not read by the
rule-layering code path and carry no influence on the catalog. -/
structure PolicyConfiguration where
  ruleOverrides : List (String × RuleOverride) := []
  customRules : List PolicyRule := []
  categories : List (String × CategorySettings) := []

/-- One `ruleOverrides` entry applied to its matching rule: `enabled` is
overwritten when present; `severity` is overwritten when truthy. -/
def applyOverride (ov : RuleOverride) (r : PolicyRule) : PolicyRule :=
  let r1 := match ov.enabled with
    | some e => { r with enabled := e }
    | none => r
  match ov.severity with
  | some sv => if sv = "" then r1 else { r1 with severity := sv }
  | none => r1

/-- The `ruleOverrides` loop: each entry mutates the rule with its id in
place (entries whose id matches no rule do nothing). -/
def applyRuleOverrides (rules : List PolicyRule)
    (ovs : List (String × RuleOverride)) : List PolicyRule :=
  ovs.foldl
    (fun rs entry =>
      rs.map (fun r => if r.id == entry.1 then applyOverride entry.2 r else r))
    rules

/-- The category-gating loop: every rule of a category explicitly marked
`enabled:false` is force-disabled. -/
def applyCategories (rules : List PolicyRule)
    (cats : List (String × CategorySettings)) : List PolicyRule :=
  cats.foldl
    (fun rs entry =>
      if entry.2.enabled then rs
      else rs.map (fun r => if r.category == entry.1 then { r with enabled := false } else r))
    rules

/-- `applyConfiguration`: rule overrides, then custom-rule registration,
then category gating, in source order. -/
def applyConfiguration (config : Option PolicyConfiguration)
    (rules : List PolicyRule) : List PolicyRule :=
  match config with
  | none => rules
  | some c =>
    let rules1 := applyRuleOverrides rules c.ruleOverrides
    let rules2 := c.customRules.foldl rulesSet rules1
    applyCategories rules2 c.categories

/-- The rule catalog after engine construction: defaults registered first,
then the configuration applied. -/
def buildRules (config : Option PolicyConfiguration) : List PolicyRule :=
  applyConfiguration config loadDefaultRules

/-- Resolution of the container list access
`deployment.spec?.template?.spec?.containers` as a key-path walk (property
reads on non-objects and on `null`/`undefined` yield `undefined`, which the
optional chain propagates). -/
def getPath : JValue → List String → Option JValue
  | d, [] => some d
  | d, k :: ks =>
    match objGet d k with
    | some w => getPath w ks
    | none => none

/-- Update the first binding of a key through a function. -/
def setFirst (fs : List (String × JValue)) (k : String) (f : JValue → JValue) :
    List (String × JValue) :=
  match fs with
  | [] => []
  | (k', w) :: rest => if k' = k then (k, f w) :: rest else (k', w) :: setFirst rest k f

/-- Write the value at a key path.  The in-place mutation of the container
array by the fix routines is modelled by writing the updated array back at
the path it was read from; a missing path leaves the document unchanged
(the routines only write to paths they successfully resolved). -/
def setPath : JValue → List String → JValue → JValue
  | _, [], v => v
  | .vObj fs, k :: ks, v => .vObj (setFirst fs k (fun w => setPath w ks v))
  | x, _ :: _, _ => x

def containersPath : List String := ["spec", "template", "spec", "containers"]

/-- The shared loop shape of the five fix routines: read
`spec?.template?.spec?.containers || []`, mutate each container in place,
and report whether any container changed.  A missing or non-array
container list leaves the document unchanged. -/
def mapContainers (deployment : JValue) (f : JValue → JValue × Bool) : JValue × Bool :=
  match getPath deployment containersPath with
  | some (.vArr containers) =>
    let results := containers.map f
    (setPath deployment containersPath (.vArr (results.map (fun r => r.1))),
     results.any (fun r => r.2))
  | _ => (deployment, false)

/-- The default security context injected by `addDefaultSecurityContext`. -/
def defaultSecurityContext : JValue :=
  .vObj
    [("allowPrivilegeEscalation", .vBool false),
     ("runAsNonRoot", .vBool true),
     ("readOnlyRootFilesystem", .vBool true),
     ("capabilities", .vObj [("drop", .vArr [.vStr "ALL"])])]

/-- The per-container body of the `addDefaultSecurityContext` loop. -/
def securityContextFixContainer (container : JValue) : JValue × Bool :=
  if truthyOpt (objGet container "securityContext") then (container, false)
  else (objSet container "securityContext" defaultSecurityContext, true)

/-- `addDefaultSecurityContext`: inject the default context into every
container whose `securityContext` is falsy. -/
def addDefaultSecurityContext (deployment : JValue) : JValue × Bool :=
  mapContainers deployment securityContextFixContainer

/-- The per-container body of the `removePrivilegedFlag` loop. -/
def privilegedFixContainer (container : JValue) : JValue × Bool :=
  if truthyOpt (optChain (objGet container "securityContext") "privileged") then
    (match objGet container "securityContext" with
     | some sc => objSet container "securityContext" (objDelete sc "privileged")
     | none => container, true)
  else (container, false)

/-- `removePrivilegedFlag`: delete a truthy `securityContext.privileged`. -/
def removePrivilegedFlag (deployment : JValue) : JValue × Bool :=
  mapContainers deployment privilegedFixContainer

/-- The per-container body of the `setNonRootUser` loop. -/
def nonRootFixContainer (container : JValue) : JValue × Bool :=
  let container1 :=
    if truthyOpt (objGet container "securityContext") then container
    else objSet container "securityContext" (.vObj [])
  let sc := objGet container1 "securityContext"
  if truthyOpt (match sc with | some v => objGet v "runAsNonRoot" | none => none) then
    (container1, false)
  else
    (match sc with
     | some v =>
       objSet container1 "securityContext"
         (objSet (objSet v "runAsNonRoot" (.vBool true)) "runAsUser" (.vNum 65534))
     | none => container1, true)

/-- `setNonRootUser`: ensure a `securityContext` object exists, then force
`runAsNonRoot`/`runAsUser` when `runAsNonRoot` is falsy. -/
def setNonRootUser (deployment : JValue) : JValue × Bool :=
  mapContainers deployment nonRootFixContainer

def defaultLimits : JValue :=
  .vObj [("cpu", .vStr "500m"), ("memory", .vStr "512Mi")]

def defaultRequests : JValue :=
  .vObj [("cpu", .vStr "100m"), ("memory", .vStr "128Mi")]

/-- The per-container body of the `addDefaultResourceLimits` loop. -/
def resourceLimitsFixContainer (container : JValue) : JValue × Bool :=
  let container1 :=
    if truthyOpt (objGet container "resources") then container
    else objSet container "resources" (.vObj [])
  let limitsMissing :=
    !truthyOpt (match objGet container1 "resources" with
                | some v => objGet v "limits"
                | none => none)
  let container2 :=
    if limitsMissing then
      match objGet container1 "resources" with
      | some v => objSet container1 "resources" (objSet v "limits" defaultLimits)
      | none => container1
    else container1
  let requestsMissing :=
    !truthyOpt (match objGet container2 "resources" with
                | some v => objGet v "requests"
                | none => none)
  let container3 :=
    if requestsMissing then
      match objGet container2 "resources" with
      | some v => objSet container2 "resources" (objSet v "requests" defaultRequests)
      | none => container2
    else container2
  (container3, limitsMissing || requestsMissing)

/-- `addDefaultResourceLimits`: ensure a `resources` object exists, then
inject default `limits` and `requests` where falsy. -/
def addDefaultResourceLimits (deployment : JValue) : JValue × Bool :=
  mapContainers deployment resourceLimitsFixContainer

def defaultLivenessProbe : JValue :=
  .vObj
    [("httpGet", .vObj [("path", .vStr "/health"), ("port", .vNum 8080)]),
     ("initialDelaySeconds", .vNum 30),
     ("periodSeconds", .vNum 10)]

def defaultReadinessProbe : JValue :=
  .vObj
    [("httpGet", .vObj [("path", .vStr "/ready"), ("port", .vNum 8080)]),
     ("initialDelaySeconds", .vNum 5),
     ("periodSeconds", .vNum 5)]

/-- The per-container body of the `addDefaultHealthChecks` loop. -/
def healthChecksFixContainer (container : JValue) : JValue × Bool :=
  let livenessMissing := !truthyOpt (objGet container "livenessProbe")
  let container1 :=
    if livenessMissing then objSet container "livenessProbe" defaultLivenessProbe
    else container
  let readinessMissing := !truthyOpt (objGet container1 "readinessProbe")
  let container2 :=
    if readinessMissing then objSet container1 "readinessProbe" defaultReadinessProbe
    else container1
  (container2, livenessMissing || readinessMissing)

/-- `addDefaultHealthChecks`: inject default liveness and readiness probes
where falsy. -/
def addDefaultHealthChecks (deployment : JValue) : JValue × Bool :=
  mapContainers deployment healthChecksFixContainer

/-- `applyAutoFix`: dispatch on the fix-action name; an unknown name
reports no fix. -/
def applyAutoFix (deployment : JValue) (fixAction : String) : JValue × Bool :=
  if fixAction = "add_default_security_context" then addDefaultSecurityContext deployment
  else if fixAction = "remove_privileged_flag" then removePrivilegedFlag deployment
  else if fixAction = "set_non_root_user" then setNonRootUser deployment
  else if fixAction = "add_default_resource_limits" then addDefaultResourceLimits deployment
  else if fixAction = "add_default_health_checks" then addDefaultHealthChecks deployment
  else (deployment, false)

/-- `Map.get` on the rule catalog. -/
def rulesGet (rules : List PolicyRule) (ruleId : String) : Option PolicyRule :=
  rules.find? (fun r => r.id == ruleId)

/-- The fix-action name the remediation loop selects for a rule:
`rule.actions.find(a => a.autoFix)?.fixAction`. -/
def selectedFixAction (rule : PolicyRule) : Option String :=
  (rule.actions.find? (fun a => a.autoFix == some true)).bind (fun a => a.fixAction)

/-- State of the `autoFixViolations` loop over one fetched deployment. -/
structure AutoFixState where
  fixed : Nat
  failed : Nat
  errors : List String
  deployment : JValue
  modified : Bool

/-- One iteration of the `autoFixViolations` loop: skip non-auto-fixable
violations, skip violations whose rule does not resolve, skip violations
whose rule selects no (or a falsy) fix-action name, and otherwise apply the
fix, counting success in `fixed` and a no-op fix in `failed`.  The modelled
fix routines are total, so the per-violation catch never fires and `errors`
stays empty. -/
def autoFixStep (rules : List PolicyRule) (st : AutoFixState)
    (violation : PolicyViolation) : AutoFixState :=
  if !violation.canAutoFix then st
  else
    match rulesGet rules violation.ruleId with
    | none => st
    | some rule =>
      match selectedFixAction rule with
      | none => st
      | some fixAction =>
        if fixAction = "" then st
        else
          let applied := applyAutoFix st.deployment fixAction
          if applied.2 then
            { st with fixed := st.fixed + 1, deployment := applied.1, modified := true }
          else
            { st with failed := st.failed + 1, deployment := applied.1 }

/-- The core of `autoFixViolations`: fold the loop over the violation list,
starting from the fetched deployment.  (The fetch and the single
conditional write-back are transport calls on the external collaborator.) -/
def autoFixViolations (rules : List PolicyRule) (deployment : JValue)
    (violations : List PolicyViolation) : AutoFixState :=
  violations.foldl (autoFixStep rules)
    { fixed := 0, failed := 0, errors := [], deployment := deployment, modified := false }

/-- `mergeGroups`: pointwise sum of grouped tallies. -/
def mergeGroups (groups : List (List (String × Nat))) : List (String × Nat) :=
  groups.foldl (fun merged group => group.foldl (fun m p => bumpBy m p.1 p.2) merged) []

/-- `generateRecommendations` (the emoji prefixes of the source strings are
rendered without their glyphs). -/
def generateRecommendations (result : PolicyEvaluationResult) : List String :=
  let all := result.violations ++ result.warnings
  let recs : List String := []
  let recs := if (all.filter (fun v => v.category == "security")).length > 0 then
      recs ++ ["Security: Review and implement security contexts, avoid privileged containers, and ensure non-root execution."]
    else recs
  let recs := if (all.filter (fun v => v.category == "performance")).length > 0 then
      recs ++ ["Resources: Define appropriate resource limits and requests for better cluster resource management."]
    else recs
  let recs := if (all.filter (fun v => v.category == "operations")).length > 0 then
      recs ++ ["Operations: Add health checks and proper labeling for improved observability and reliability."]
    else recs
  let recs := if (all.filter (fun v => v.category == "compliance")).length > 0 then
      recs ++ ["Compliance: Use approved image registries and avoid latest tags for better governance."]
    else recs
  let autoFixable := (all.filter (fun v => v.canAutoFix)).length
  if autoFixable > 0 then
    recs ++ [s!"Auto-fix: {autoFixable} violations can be automatically fixed. Consider using the auto-remediation feature."]
  else recs

/-- JavaScript `Math.round`: round half toward positive infinity. -/
def jsMathRound (x : Rat) : Int := ⌊x + 1 / 2⌋

structure ComplianceReportCore where
  overallCompliance : Rat
  results : PolicyEvaluationResult
  recommendations : List String

/-- The aggregation core of `generateComplianceReport`: evaluate every
deployment in scope, concatenate buckets, sum summary counters, and compute
the two-decimal compliance percentage (100 when no rule applied).  The
cluster identity and timestamp come from external collaborators. -/
def generateComplianceReportCore (rules : List PolicyRule)
    (deployments : List JValue) : ComplianceReportCore :=
  let allResults := deployments.map (fun d => evaluateResource rules d "deployment")
  let aggregatedResult : PolicyEvaluationResult :=
    { passed := allResults.all (fun r => r.passed)
      violations := allResults.flatMap (fun r => r.violations)
      warnings := allResults.flatMap (fun r => r.warnings)
      summary :=
        { totalRules := (allResults.map (fun r => r.summary.totalRules)).sum
          passedRules := (allResults.map (fun r => r.summary.passedRules)).sum
          failedRules := (allResults.map (fun r => r.summary.failedRules)).sum
          violationsBySeverity := mergeGroups (allResults.map (fun r => r.summary.violationsBySeverity))
          violationsByCategory := mergeGroups (allResults.map (fun r => r.summary.violationsByCategory)) } }
  let totalChecks := aggregatedResult.summary.totalRules
  let passedChecks := aggregatedResult.summary.passedRules
  let overallCompliance : Rat :=
    if totalChecks > 0 then ((passedChecks : Rat) / (totalChecks : Rat)) * 100 else 100
  { overallCompliance := (jsMathRound (overallCompliance * 100) : Rat) / 100
    results := aggregatedResult
    recommendations := generateRecommendations aggregatedResult }

/-- Field resolution with the document state threaded through: the source
statements of `getFieldValue`/`getNestedValue`/`parseResourceValue` only
read the document, so the embedding returns the state it was handed. -/
def getFieldValueSt (resource : JValue) (field : String) : Option JValue × JValue :=
  (getFieldValue resource field, resource)

/-- Condition evaluation with the document state threaded through. -/
def evaluateConditionSt (condition : PolicyCondition) (resource : JValue) :
    CondResult × JValue :=
  let resolved := getFieldValueSt resource condition.field
  (condOpResult condition.operator condition.value resolved.1, resolved.2)

/-- Rule evaluation with the document state threaded through the condition
loop. -/
def evaluateRuleSt (rule : PolicyRule) (resource : JValue) :
    List PolicyViolation × JValue :=
  rule.conditions.foldl
    (fun acc condition =>
      let step := evaluateConditionSt condition acc.2
      if step.1.passed then (acc.1, step.2)
      else (acc.1 ++ [mkViolation rule step.2 condition step.1], step.2))
    ([], resource)

/-- `evaluateResource` with the document state threaded through the rule
loop, for the frame property: evaluation reads but never writes the
resource. -/
def evaluateResourceSt (rules : List PolicyRule) (resource : JValue)
    (resourceType : String) : PolicyEvaluationResult × JValue :=
  let enabledRules := enabledRulesFor rules resourceType
  let folded :=
    enabledRules.foldl
      (fun (acc : (List PolicyViolation × List PolicyViolation) × JValue) rule =>
        let step := evaluateRuleSt rule acc.2
        if hasDenyAction rule then ((acc.1.1 ++ step.1, acc.1.2), step.2)
        else ((acc.1.1, acc.1.2 ++ step.1), step.2))
      (([], []), resource)
  let violations := folded.1.1
  let warnings := folded.1.2
  let totalRules := enabledRules.length
  let failedRules := ((violations ++ warnings).map (fun v => v.ruleId)).dedup.length
  ({ passed := violations.length == 0
     violations := violations
     warnings := warnings
     summary :=
       { totalRules := totalRules
         passedRules := (totalRules : Int) - (failedRules : Int)
         failedRules := failedRules
         violationsBySeverity := groupBy ((violations ++ warnings).map (fun v => v.severity))
         violationsByCategory := groupBy ((violations ++ warnings).map (fun v => v.category)) } },
   folded.2)

/-- Shape side of the resource-document contract used by the idempotence
property: whenever the container list resolves to an array, each container
is an object whose `securityContext` and `resources` fields are falsy or
objects (the shapes the external interface contract assigns to those
fields). -/
def isObjB : JValue → Bool
  | .vObj _ => true
  | _ => false

def falsyOrObj : Option JValue → Bool
  | none => true
  | some x => !truthy x || isObjB x

def wellShapedContainer (c : JValue) : Bool :=
  isObjB c && falsyOrObj (objGet c "securityContext") && falsyOrObj (objGet c "resources")

def wellShapedResource (d : JValue) : Bool :=
  match getPath d containersPath with
  | some (.vArr cs) => cs.all wellShapedContainer
  | _ => true

/-- The skip test of the remediation loop for an auto-fixable violation:
its rule does not resolve, or the rule selects no (or an empty) fix-action
name. -/
def declaresNoFix (rules : List PolicyRule) (violation : PolicyViolation) : Bool :=
  match rulesGet rules violation.ruleId with
  | none => true
  | some rule =>
    match selectedFixAction rule with
    | none => true
    | some s => s == ""

/-- Concrete deployment of the security-context scenario: one container
without a `securityContext`. -/
def scenarioA : JValue :=
  .vObj
    [("kind", .vStr "Deployment"),
     ("metadata", .vObj [("name", .vStr "demo"), ("namespace", .vStr "default")]),
     ("spec", .vObj
       [("template", .vObj
         [("spec", .vObj
           [("containers", .vArr
             [.vObj [("name", .vStr "app"), ("image", .vStr "ghcr.io/acme/app:1.0")]])])])])]

/-- Concrete deployment of the CPU-limit scenario: one container with
`resources.limits.cpu = "2500m"`. -/
def scenarioB : JValue :=
  .vObj
    [("kind", .vStr "Deployment"),
     ("metadata", .vObj [("name", .vStr "big-cpu")]),
     ("spec", .vObj
       [("template", .vObj
         [("spec", .vObj
           [("containers", .vArr
             [.vObj
               [("name", .vStr "app"),
                ("resources", .vObj [("limits", .vObj [("cpu", .vStr "2500m")])])]])])])])]

/-- The condition of the CPU-limit scenario. -/
def cpuLimitCondition : PolicyCondition :=
  { field := "spec.template.spec.containers[*].resources.limits.cpu"
    operator := "less_than"
    value := .vStr "2000m"
    description := some "CPU limits should typically be under 2 cores" }

/-- An auto-fixable violation whose rule id resolves to no rule in the
default catalog. -/
def ghostViolation : PolicyViolation :=
  { ruleId := "ghost-001"
    ruleName := "Ghost Rule"
    severity := "high"
    category := "security"
    resKind := .vStr "Deployment"
    resName := .vStr "demo"
    resNamespace := some (.vStr "default")
    message := "unfixable"
    field := "spec.template.spec.containers[*].securityContext"
    currentValue := none
    suggestedValue := none
    canAutoFix := true
    metadata := none }

/-- An auto-fixable violation whose rule (`ops-002`) resolves but declares
no fix action. -/
def labelViolation : PolicyViolation :=
  { ghostViolation with
      ruleId := "ops-002"
      ruleName := "Require Labels"
      severity := "low"
      category := "operations"
      field := "metadata.labels.app" }

/-- Configuration disabling `sec-001` through a rule override, with an
explicit (enabled) category setting for its category. -/
def overrideOnlyConfig : PolicyConfiguration :=
  { ruleOverrides := [("sec-001", { enabled := some false })]
    customRules := []
    categories := [("security", { enabled := true, enforcement := "strict", autoFix := false })] }

/-- A custom rule reusing the id `sec-001`. -/
def customSec001 : PolicyRule :=
  { sec001 with
      name := "Custom Security Context"
      description := "Organization-specific security context rule"
      enabled := true }

/-- The same configuration with a colliding custom rule added. -/
def collidingConfig : PolicyConfiguration :=
  { overrideOnlyConfig with customRules := [customSec001] }

/-- Witness document for the projection-collapse property. -/
def projDoc : JValue :=
  .vObj [("items", .vArr [.vObj [("x", .vNum 1)], .vObj [("y", .vNum 2)]])]

/-- Witness condition for the projection-collapse property. -/
def projCondition : PolicyCondition :=
  { field := "items[*].x", operator := "equals", value := .vBool true }

/-- Witness deployment for the idempotence property: two containers, one
bare and one privileged. -/
def idemDoc : JValue :=
  .vObj
    [("kind", .vStr "Deployment"),
     ("metadata", .vObj [("name", .vStr "mixed")]),
     ("spec", .vObj
       [("template", .vObj
         [("spec", .vObj
           [("containers", .vArr
             [.vObj [("name", .vStr "plain")],
              .vObj
                [("name", .vStr "priv"),
                 ("securityContext", .vObj [("privileged", .vBool true)]),
                 ("resources", .vObj [("limits", .vObj [("cpu", .vStr "250m")])])]])])])])]

theorem length_beq_zero_eq_isEmpty (l : List PolicyViolation) :
    (l.length == 0) = l.isEmpty := by
  cases l <;> rfl

/-- Claim C1: for every resource document and rule catalog, the evaluation
result satisfies `passed = true` exactly when its violations list is empty;
`passed` is computed from the blocking bucket alone, so the warnings list
never affects it. -/
theorem evaluateResource_passed_iff_no_violations
    (rules : List PolicyRule) (resource : JValue) (resourceType : String) :
    (evaluateResource rules resource resourceType).passed
      = (evaluateResource rules resource resourceType).violations.isEmpty := by
  unfold evaluateResource
  exact length_beq_zero_eq_isEmpty _

theorem evalBucketsFold (resource : JValue) :
    ∀ (rs : List PolicyRule) (v0 w0 : List PolicyViolation),
      rs.foldl
        (fun (buckets : List PolicyViolation × List PolicyViolation) rule =>
          let ruleViolations := evaluateRule rule resource
          if hasDenyAction rule then (buckets.1 ++ ruleViolations, buckets.2)
          else (buckets.1, buckets.2 ++ ruleViolations))
        (v0, w0)
      = (v0 ++ (rs.filter hasDenyAction).flatMap (fun r => evaluateRule r resource),
         w0 ++ (rs.filter (fun r => !hasDenyAction r)).flatMap (fun r => evaluateRule r resource))
  | [], v0, w0 => by simp
  | r :: rs, v0, w0 => by
    cases h : hasDenyAction r <;>
      simp [h, evalBucketsFold resource rs, List.filter_cons, List.append_assoc]

/-- Claim C5: for every catalog and resource, the blocking-violations
bucket is exactly the records of the enabled, scope-matching rules that
carry a `deny` action, and the warnings bucket exactly those of the rules
that do not — every failing condition of a deny rule lands in violations,
and every failing condition of a deny-free rule lands in warnings, never in
violations. -/
theorem deny_rules_bucket_to_violations
    (rules : List PolicyRule) (resource : JValue) (resourceType : String) :
    (evaluateResource rules resource resourceType).violations
        = ((enabledRulesFor rules resourceType).filter hasDenyAction).flatMap
            (fun r => evaluateRule r resource)
      ∧ (evaluateResource rules resource resourceType).warnings
        = ((enabledRulesFor rules resourceType).filter (fun r => !hasDenyAction r)).flatMap
            (fun r => evaluateRule r resource) := by
  have h := evalBucketsFold resource (enabledRulesFor rules resourceType) [] []
  unfold evaluateResource
  dsimp only
  rw [h]
  exact ⟨rfl, rfl⟩

/-- Claim C2: when the field path of a condition carries one array-projection
segment whose prefix resolves to an array, the resolver collapses the
projection into the single boolean "some array element has a defined
(non-null) value at the suffix path", and the operator of the condition —
whichever it is — is applied to that boolean, not to per-element values. -/
theorem projected_path_collapse
    (obj : JValue) (c : PolicyCondition) (pre suf : String) (items : List JValue)
    (hsplit : jsSplit c.field "[*]" = [pre, suf])
    (harr : getNestedValue obj pre = some (.vArr items)) :
    getFieldValue obj c.field = some (.vBool (items.any (definedAtSuffix suf)))
    ∧ evaluateCondition c obj
        = condOpResult c.operator c.value (some (.vBool (items.any (definedAtSuffix suf)))) := by
  have h1 : getFieldValue obj c.field = some (.vBool (items.any (definedAtSuffix suf))) := by
    unfold getFieldValue
    rw [hsplit]
    dsimp only
    rw [harr]
  exact ⟨h1, by unfold evaluateCondition; rw [h1]⟩

theorem projected_path_collapse_witness :
    jsSplit projCondition.field "[*]" = ["items", ".x"]
    ∧ getNestedValue projDoc "items"
        = some (.vArr [.vObj [("x", .vNum 1)], .vObj [("y", .vNum 2)]])
    ∧ getFieldValue projDoc projCondition.field = some (.vBool true)
    ∧ evaluateCondition projCondition projDoc
        = condOpResult "equals" (.vBool true) (some (.vBool true)) := by
  have h := projected_path_collapse projDoc projCondition "items" ".x"
    [.vObj [("x", .vNum 1)], .vObj [("y", .vNum 2)]] rfl rfl
  exact ⟨rfl, rfl, h.1.trans rfl, h.2.trans rfl⟩

/-- Claim C3 (code bug): on a deployment with a single container lacking a
`securityContext`, the built-in `sec-001` rule produces no record at all —
the projected path collapses to the boolean `false`, which the `exists`
operator counts as defined — even though the remediation routine of the rule
reports the very same document as needing a fix. -/
theorem sec001_missing_context_yields_no_record :
    evaluateRule sec001 scenarioA = []
    ∧ getFieldValue scenarioA "spec.template.spec.containers[*].securityContext"
        = some (.vBool false)
    ∧ (addDefaultSecurityContext scenarioA).2 = true := by
  exact ⟨rfl, rfl, rfl⟩

/-- Claim C4 (code bug): the `less_than "2000m"` condition on the projected
CPU-limit path passes on a container with `limits.cpu = "2500m"`: the
resolver collapses the projection to the boolean `true`, which quantity
parsing turns into 0, and 0 < 2000 — so the rule produces no record. -/
theorem res002_cpu2500_condition_passes :
    (evaluateCondition cpuLimitCondition scenarioB).passed = true
    ∧ parseResourceValue (getFieldValue scenarioB cpuLimitCondition.field) = some 0
    ∧ evaluateRule res002 scenarioB = [] := by
  exact ⟨rfl, rfl, rfl⟩

theorem autoFixStep_skip (rules : List PolicyRule) (st : AutoFixState) (v : PolicyViolation)
    (hca : v.canAutoFix = true) (hnf : declaresNoFix rules v = true) :
    autoFixStep rules st v = st := by
  unfold autoFixStep
  rw [hca]
  unfold declaresNoFix at hnf
  cases hget : rulesGet rules v.ruleId with
  | none => simp [hget]
  | some rule =>
    rw [hget] at hnf
    dsimp only at hnf
    cases hfa : selectedFixAction rule with
    | none => simp [hget, hfa]
    | some s =>
      rw [hfa] at hnf
      dsimp only at hnf
      have hs : s = "" := by simpa using hnf
      simp [hget, hfa, hs]

/-- Claim C6, amended (the code drops such violations): an auto-fixable
violation whose rule does not resolve, or whose rule selects no fix-action
name, is skipped by the remediation loop without touching any tally — the
result is the same as if the violation had not been passed in at all; it is
not counted as failed. -/
theorem unfixable_violation_silently_skipped
    (rules : List PolicyRule) (deployment : JValue)
    (vs1 vs2 : List PolicyViolation) (v : PolicyViolation)
    (hca : v.canAutoFix = true) (hnf : declaresNoFix rules v = true) :
    autoFixViolations rules deployment (vs1 ++ v :: vs2)
      = autoFixViolations rules deployment (vs1 ++ vs2) := by
  unfold autoFixViolations
  rw [List.foldl_append, List.foldl_append, List.foldl_cons,
    autoFixStep_skip rules _ v hca hnf]

/-- Claim C6 counterexample: two auto-fixable violations — one whose rule
id resolves to no rule, one whose rule (`ops-002`) declares no fix action —
leave the remediation tallies at `fixed = 0, failed = 0`: neither is
reported as failed-to-fix. -/
theorem unfixable_violation_not_counted_failed :
    ghostViolation.canAutoFix = true
    ∧ (rulesGet loadDefaultRules ghostViolation.ruleId).isNone = true
    ∧ labelViolation.canAutoFix = true
    ∧ (rulesGet loadDefaultRules labelViolation.ruleId).isSome = true
    ∧ ((rulesGet loadDefaultRules labelViolation.ruleId).bind selectedFixAction).isNone = true
    ∧ (autoFixViolations loadDefaultRules scenarioA [ghostViolation, labelViolation]).failed = 0
    ∧ (autoFixViolations loadDefaultRules scenarioA [ghostViolation, labelViolation]).fixed = 0 :=
  ⟨rfl, rfl, rfl, rfl, rfl, rfl, rfl⟩

theorem unfixable_violation_silently_skipped_witness :
    ghostViolation.canAutoFix = true
    ∧ declaresNoFix loadDefaultRules ghostViolation = true
    ∧ autoFixViolations loadDefaultRules scenarioA [ghostViolation, labelViolation]
        = autoFixViolations loadDefaultRules scenarioA [labelViolation] :=
  ⟨rfl, rfl,
    unfixable_violation_silently_skipped loadDefaultRules scenarioA [] [labelViolation]
      ghostViolation rfl rfl⟩

/-- Claim C7: the `overallCompliance` field of the report is the aggregated passed
rules divided by the aggregated total rules, times 100, rounded to two
decimal places — and when the aggregated total is 0 (an empty scope
included) it is exactly 100. -/
theorem overallCompliance_formula (rules : List PolicyRule) (deployments : List JValue) :
    (generateComplianceReportCore rules deployments).overallCompliance
      = (let results := deployments.map (fun d => evaluateResource rules d "deployment")
         let totalAgg : Nat := (results.map (fun r => r.summary.totalRules)).sum
         let passedAgg : Int := (results.map (fun r => r.summary.passedRules)).sum
         if totalAgg = 0 then (100 : Rat)
         else (jsMathRound (((passedAgg : Rat) / (totalAgg : Rat)) * 100 * 100) : Rat) / 100) := by
  unfold generateComplianceReportCore
  dsimp only
  by_cases h :
      (List.map (fun r => r.summary.totalRules)
        (deployments.map (fun d => evaluateResource rules d "deployment"))).sum = 0
  · rw [if_pos h, if_neg (by omega)]
    norm_num [jsMathRound]
  · have hpos :
        0 < (List.map (fun r => r.summary.totalRules)
          (deployments.map (fun d => evaluateResource rules d "deployment"))).sum :=
      Nat.pos_of_ne_zero h
    rw [if_neg h, if_pos hpos]

theorem evalRuleFoldAux (rule : PolicyRule) (resource : JValue) :
    ∀ (conds : List PolicyCondition) (acc : List PolicyViolation),
      conds.foldl
        (fun acc condition =>
          let step := evaluateConditionSt condition acc.2
          if step.1.passed then (acc.1, step.2)
          else (acc.1 ++ [mkViolation rule step.2 condition step.1], step.2))
        (acc, resource)
      = (conds.foldl
          (fun violations condition =>
            let result := evaluateCondition condition resource
            if result.passed then violations
            else violations ++ [mkViolation rule resource condition result])
          acc,
         resource)
  | [], acc => rfl
  | c :: cs, acc => by
    have hst : evaluateConditionSt c resource = (evaluateCondition c resource, resource) := rfl
    cases h : (evaluateCondition c resource).passed <;>
      simp [hst, h, evalRuleFoldAux rule resource cs]

theorem evaluateRuleSt_eq (rule : PolicyRule) (resource : JValue) :
    evaluateRuleSt rule resource = (evaluateRule rule resource, resource) := by
  unfold evaluateRuleSt evaluateRule
  exact evalRuleFoldAux rule resource rule.conditions []

theorem evalResourceFoldAux (resource : JValue) :
    ∀ (rs : List PolicyRule) (acc : List PolicyViolation × List PolicyViolation),
      rs.foldl
        (fun (acc : (List PolicyViolation × List PolicyViolation) × JValue) rule =>
          let step := evaluateRuleSt rule acc.2
          if hasDenyAction rule then ((acc.1.1 ++ step.1, acc.1.2), step.2)
          else ((acc.1.1, acc.1.2 ++ step.1), step.2))
        (acc, resource)
      = (rs.foldl
          (fun (buckets : List PolicyViolation × List PolicyViolation) rule =>
            let ruleViolations := evaluateRule rule resource
            if hasDenyAction rule then (buckets.1 ++ ruleViolations, buckets.2)
            else (buckets.1, buckets.2 ++ ruleViolations))
          acc,
         resource)
  | [], acc => rfl
  | r :: rs, acc => by
    simp only [List.foldl_cons]
    rw [evaluateRuleSt_eq]
    dsimp only
    cases hasDenyAction r
    · rw [if_neg (by simp), if_neg (by simp)]
      exact evalResourceFoldAux resource rs _
    · rw [if_pos rfl, if_pos rfl]
      exact evalResourceFoldAux resource rs _

/-- Claim C10: evaluation is read-only on the resource document.  With the
document state threaded through field-path resolution, condition evaluation
and rule evaluation (mutation would surface as a changed state, as it does
in the fix routines), the state after `evaluateResource` is exactly the
input document, and the produced result is that of the pure evaluator. -/
theorem evaluateResource_readonly
    (rules : List PolicyRule) (resource : JValue) (resourceType : String) :
    (evaluateResourceSt rules resource resourceType).2 = resource
    ∧ (evaluateResourceSt rules resource resourceType).1
        = evaluateResource rules resource resourceType := by
  have h := evalResourceFoldAux resource (enabledRulesFor rules resourceType) ([], [])
  unfold evaluateResourceSt evaluateResource
  dsimp only
  rw [h]
  exact ⟨rfl, rfl⟩

theorem applyOverride_id (ov : RuleOverride) (r : PolicyRule) :
    (applyOverride ov r).id = r.id := by
  unfold applyOverride
  rcases ov with ⟨oe, os, oen⟩
  cases oe <;> cases os <;> dsimp only <;> first | rfl | (split <;> rfl)

theorem applyOverride_enabled_false (ov : RuleOverride) (r : PolicyRule)
    (h : ov.enabled = some false) : (applyOverride ov r).enabled = false := by
  unfold applyOverride
  rw [h]
  cases os : ov.severity with
  | none => rfl
  | some sv =>
    dsimp only
    split <;> rfl

theorem applyRuleOverrides_keeps_disabled (r : String) :
    ∀ (ovs : List (String × RuleOverride)) (rs : List PolicyRule),
      (∀ rule ∈ rs, rule.id = r → rule.enabled = false) →
      (∀ e ∈ ovs, e.1 ≠ r) →
      ∀ rule ∈ applyRuleOverrides rs ovs, rule.id = r → rule.enabled = false
  | [], rs, hinv, _ => hinv
  | e :: ovs, rs, hinv, hkeys => by
    have hne : e.1 ≠ r := hkeys e (List.mem_cons_self e ovs)
    refine applyRuleOverrides_keeps_disabled r ovs _ ?_ (fun e' he' => hkeys e' (List.mem_cons_of_mem e he'))
    intro rule hrule hid
    obtain ⟨x, hx, hxeq⟩ := List.mem_map.mp hrule
    by_cases hguard : x.id == e.1
    · rw [if_pos hguard] at hxeq
      subst hxeq
      exact absurd ((applyOverride_id e.2 x ▸ hid : x.id = r) ▸ (by simpa using hguard)) hne.symm
    · rw [if_neg hguard] at hxeq
      subst hxeq
      exact hinv x hx hid

theorem applyRuleOverrides_disables (r : String) (ov : RuleOverride)
    (hov : ov.enabled = some false) :
    ∀ (ovs : List (String × RuleOverride)) (rs : List PolicyRule),
      (ovs.map Prod.fst).Nodup →
      (r, ov) ∈ ovs →
      ∀ rule ∈ applyRuleOverrides rs ovs, rule.id = r → rule.enabled = false
  | [], _, _, hmem => absurd hmem (List.not_mem_nil _)
  | e :: ovs, rs, hnodup, hmem => by
    rcases List.mem_cons.mp hmem with heq | htail
    · have hkeys : ∀ e' ∈ ovs, e'.1 ≠ r := by
        intro e' he' habs
        have : r ∈ ovs.map Prod.fst := habs ▸ List.mem_map_of_mem Prod.fst he'
        have hr : e.1 = r := by rw [← heq]
        exact (List.nodup_cons.mp hnodup).1 (hr ▸ this)
      refine applyRuleOverrides_keeps_disabled r ovs _ ?_ hkeys
      intro rule hrule hid
      obtain ⟨x, hx, hxeq⟩ := List.mem_map.mp hrule
      by_cases hguard : x.id == e.1
      · rw [if_pos hguard] at hxeq
        subst hxeq
        have : e.2 = ov := by rw [← heq]
        exact this ▸ applyOverride_enabled_false e.2 x (this ▸ hov)
      · rw [if_neg hguard] at hxeq
        subst hxeq
        have hr : e.1 = r := by rw [← heq]
        exact absurd (by simpa using (hr ▸ hid : x.id = e.1)) (by simpa using hguard)
    · exact applyRuleOverrides_disables r ov hov ovs _ (List.nodup_cons.mp hnodup).2 htail

theorem rulesSet_keeps_disabled (r : String) (rs : List PolicyRule) (cr : PolicyRule)
    (hinv : ∀ rule ∈ rs, rule.id = r → rule.enabled = false) (hne : cr.id ≠ r) :
    ∀ rule ∈ rulesSet rs cr, rule.id = r → rule.enabled = false := by
  unfold rulesSet
  split
  · intro rule hrule hid
    obtain ⟨x, hx, hxeq⟩ := List.mem_map.mp hrule
    by_cases hguard : x.id == cr.id
    · rw [if_pos hguard] at hxeq
      exact absurd (hxeq ▸ hid) hne
    · rw [if_neg hguard] at hxeq
      subst hxeq
      exact hinv x hx hid
  · intro rule hrule hid
    rcases List.mem_append.mp hrule with hin | hin
    · exact hinv rule hin hid
    · have : rule = cr := by simpa using hin
      exact absurd (this ▸ hid) hne

theorem customFold_keeps_disabled (r : String) :
    ∀ (crs : List PolicyRule) (rs : List PolicyRule),
      (∀ rule ∈ rs, rule.id = r → rule.enabled = false) →
      (∀ cr ∈ crs, cr.id ≠ r) →
      ∀ rule ∈ crs.foldl rulesSet rs, rule.id = r → rule.enabled = false
  | [], rs, hinv, _ => hinv
  | cr :: crs, rs, hinv, hne => by
    refine customFold_keeps_disabled r crs _ ?_ (fun c hc => hne c (List.mem_cons_of_mem cr hc))
    exact rulesSet_keeps_disabled r rs cr hinv (hne cr (List.mem_cons_self cr crs))

theorem applyCategories_keeps_disabled (r : String) :
    ∀ (cats : List (String × CategorySettings)) (rs : List PolicyRule),
      (∀ rule ∈ rs, rule.id = r → rule.enabled = false) →
      ∀ rule ∈ applyCategories rs cats, rule.id = r → rule.enabled = false
  | [], rs, hinv => hinv
  | c :: cats, rs, hinv => by
    refine applyCategories_keeps_disabled r cats _ ?_
    dsimp only
    split
    · exact hinv
    · intro rule hrule hid
      obtain ⟨x, hx, hxeq⟩ := List.mem_map.mp hrule
      by_cases hguard : x.category == c.1
      · rw [if_pos hguard] at hxeq
        rw [← hxeq]
      · rw [if_neg hguard] at hxeq
        subst hxeq
        exact hinv x hx hid

/-- Claim C9, amended: if the `ruleOverrides` entry of the configuration for
rule id `r` sets `enabled = false`, and no custom rule of the same
configuration reuses id `r` (custom rules are registered after overrides
and replace the overridden rule), then no rule with id `r` appears in the
enabled-and-scope-matching rule set of any subsequent evaluation,
regardless of the category settings present in the configuration. -/
theorem override_disabled_rule_excluded
    (cfg : PolicyConfiguration) (r : String) (ov : RuleOverride) (scope : String)
    (hnodup : (cfg.ruleOverrides.map Prod.fst).Nodup)
    (hmem : (r, ov) ∈ cfg.ruleOverrides)
    (hdis : ov.enabled = some false)
    (hcustom : ∀ cr ∈ cfg.customRules, cr.id ≠ r) :
    ∀ rule ∈ enabledRulesFor (buildRules (some cfg)) scope, rule.id ≠ r := by
  intro rule hrule hid
  have h1 := applyRuleOverrides_disables r ov hdis cfg.ruleOverrides loadDefaultRules hnodup hmem
  have h2 := customFold_keeps_disabled r cfg.customRules _ h1 hcustom
  have h3 := applyCategories_keeps_disabled r cfg.categories _ h2
  obtain ⟨hmem', hcond⟩ := List.mem_filter.mp hrule
  have hdisabled : rule.enabled = false := h3 rule hmem' hid
  simp [hdisabled] at hcond

/-- Claim C9 counterexample: with `ruleOverrides["sec-001"].enabled =
false` but a custom rule reusing id `sec-001`, the constructed catalog's
effective rule set for deployments does contain a rule with id `sec-001` —
the override alone does not guarantee exclusion. -/
theorem override_disabled_rule_reappears_via_custom_rule :
    (List.lookup "sec-001" collidingConfig.ruleOverrides).map (fun ov => ov.enabled)
        = some (some false)
    ∧ loadDefaultRules.any (fun rule => rule.id == "sec-001") = true
    ∧ (enabledRulesFor (buildRules (some collidingConfig)) "deployment").any
        (fun rule => rule.id == "sec-001") = true :=
  ⟨rfl, rfl, rfl⟩

theorem override_disabled_rule_excluded_witness :
    ((overrideOnlyConfig.ruleOverrides.map Prod.fst).Nodup)
    ∧ ("sec-001", ({ enabled := some false } : RuleOverride)) ∈ overrideOnlyConfig.ruleOverrides
    ∧ (({ enabled := some false } : RuleOverride)).enabled = some false
    ∧ (∀ cr ∈ overrideOnlyConfig.customRules, cr.id ≠ "sec-001")
    ∧ ∀ rule ∈ enabledRulesFor (buildRules (some overrideOnlyConfig)) "deployment",
        rule.id ≠ "sec-001" := by
  refine ⟨by simp [overrideOnlyConfig], by simp [overrideOnlyConfig], rfl,
    by simp [overrideOnlyConfig], ?_⟩
  exact override_disabled_rule_excluded overrideOnlyConfig "sec-001"
    { enabled := some false } "deployment" (by simp [overrideOnlyConfig])
    (by simp [overrideOnlyConfig]) rfl (by simp [overrideOnlyConfig])

theorem assocGet_objSetFields_self (fs : List (String × JValue)) (k : String) (v : JValue) :
    assocGet (objSetFields fs k v) k = some v := by
  induction fs with
  | nil => simp [objSetFields, assocGet]
  | cons p rest ih =>
    obtain ⟨k', w⟩ := p
    by_cases h : k' = k
    · simp [objSetFields, h, assocGet]
    · simp [objSetFields, h, assocGet, ih]

theorem assocGet_objSetFields_ne (fs : List (String × JValue)) (k k' : String) (v : JValue)
    (hne : k' ≠ k) : assocGet (objSetFields fs k v) k' = assocGet fs k' := by
  induction fs with
  | nil => simp [objSetFields, assocGet, Ne.symm hne]
  | cons p rest ih =>
    obtain ⟨k0, w⟩ := p
    by_cases h : k0 = k
    · subst h
      simp [objSetFields, assocGet, Ne.symm hne]
    · by_cases h' : k0 = k'
      · subst h'
        simp [objSetFields, h, assocGet, hne]
      · simp [objSetFields, h, assocGet, h', ih]

theorem assocGet_objDeleteFields_self (fs : List (String × JValue)) (k : String) :
    assocGet (objDeleteFields fs k) k = none := by
  induction fs with
  | nil => rfl
  | cons p rest ih =>
    obtain ⟨k', w⟩ := p
    by_cases h : k' = k
    · simp [objDeleteFields, h, ih]
    · simp [objDeleteFields, h, assocGet, ih]

theorem isObjB_objSet (o : JValue) (k : String) (v : JValue) :
    isObjB (objSet o k v) = isObjB o := by
  cases o <;> rfl

theorem objGet_objSet_self (o : JValue) (k : String) (v : JValue)
    (h : isObjB o = true) : objGet (objSet o k v) k = some v := by
  cases o with
  | vObj fs => exact assocGet_objSetFields_self fs k v
  | vNull => simp [isObjB] at h
  | vBool b => simp [isObjB] at h
  | vNum n => simp [isObjB] at h
  | vStr s => simp [isObjB] at h
  | vArr xs => simp [isObjB] at h

theorem objGet_objSet_ne (o : JValue) (k k' : String) (v : JValue) (hne : k' ≠ k) :
    objGet (objSet o k v) k' = objGet o k' := by
  cases o with
  | vObj fs => exact assocGet_objSetFields_ne fs k k' v hne
  | vNull => rfl
  | vBool b => rfl
  | vNum n => rfl
  | vStr s => rfl
  | vArr xs => rfl

theorem assocGet_setFirst_self (fs : List (String × JValue)) (k : String)
    (f : JValue → JValue) (u : JValue) (h : assocGet fs k = some u) :
    assocGet (setFirst fs k f) k = some (f u) := by
  induction fs with
  | nil => simp [assocGet] at h
  | cons p rest ih =>
    obtain ⟨k', w⟩ := p
    by_cases hk : k' = k
    · rw [assocGet, if_pos hk] at h
      simp [setFirst, hk, assocGet, Option.some_inj.mp h]
    · rw [assocGet, if_neg hk] at h
      simp [setFirst, hk, assocGet, ih h]

theorem setFirst_same (fs : List (String × JValue)) (k : String)
    (f : JValue → JValue) (u : JValue) (h : assocGet fs k = some u) (hfu : f u = u) :
    setFirst fs k f = fs := by
  induction fs with
  | nil => simp [assocGet] at h
  | cons p rest ih =>
    obtain ⟨k', w⟩ := p
    by_cases hk : k' = k
    · rw [assocGet, if_pos hk] at h
      simp [setFirst, hk, Option.some_inj.mp h, hfu]
    · rw [assocGet, if_neg hk] at h
      simp [setFirst, hk, ih h]

theorem getPath_setPath :
    ∀ (ks : List String) (d w v : JValue),
      getPath d ks = some w → getPath (setPath d ks v) ks = some v
  | [], d, w, v, _ => by simp [setPath, getPath]
  | k :: ks, d, w, v, h => by
    rw [getPath] at h
    cases hg : objGet d k with
    | none => rw [hg] at h; exact absurd h (by simp)
    | some u =>
      rw [hg] at h
      cases d with
      | vObj fs =>
        rw [setPath, getPath, objGet,
          assocGet_setFirst_self fs k _ u (by simpa [objGet] using hg)]
        exact getPath_setPath ks u w v h
      | vNull => simp [objGet] at hg
      | vBool b => simp [objGet] at hg
      | vNum n => simp [objGet] at hg
      | vStr s => simp [objGet] at hg
      | vArr xs => simp [objGet] at hg

theorem setPath_same :
    ∀ (ks : List String) (d v : JValue),
      getPath d ks = some v → setPath d ks v = d
  | [], d, v, h => by
    rw [getPath] at h
    rw [setPath, Option.some_inj.mp h.symm]
  | k :: ks, d, v, h => by
    rw [getPath] at h
    cases hg : objGet d k with
    | none => rw [hg] at h; exact absurd h (by simp)
    | some u =>
      rw [hg] at h
      cases d with
      | vObj fs =>
        rw [setPath, setFirst_same fs k _ u (by simpa [objGet] using hg) (setPath_same ks u v h)]
      | vNull => simp [objGet] at hg
      | vBool b => simp [objGet] at hg
      | vNum n => simp [objGet] at hg
      | vStr s => simp [objGet] at hg
      | vArr xs => simp [objGet] at hg

theorem mapContainers_idem (f : JValue → JValue × Bool) (P : JValue → Bool)
    (hidem : ∀ c, P c = true → f (f c).1 = ((f c).1, false))
    (d : JValue)
    (hd : ∀ cs, getPath d containersPath = some (.vArr cs) → cs.all P = true) :
    mapContainers (mapContainers d f).1 f = ((mapContainers d f).1, false) := by
  cases hg : getPath d containersPath with
  | none =>
    have e : mapContainers d f = (d, false) := by unfold mapContainers; rw [hg]
    rw [e]
    exact e
  | some val =>
    cases val with
    | vNull =>
      have e : mapContainers d f = (d, false) := by unfold mapContainers; rw [hg]
      rw [e]
      exact e
    | vBool b =>
      have e : mapContainers d f = (d, false) := by unfold mapContainers; rw [hg]
      rw [e]
      exact e
    | vNum n =>
      have e : mapContainers d f = (d, false) := by unfold mapContainers; rw [hg]
      rw [e]
      exact e
    | vStr s =>
      have e : mapContainers d f = (d, false) := by unfold mapContainers; rw [hg]
      rw [e]
      exact e
    | vObj fs =>
      have e : mapContainers d f = (d, false) := by unfold mapContainers; rw [hg]
      rw [e]
      exact e
    | vArr cs =>
      have hall := hd cs hg
      have e : mapContainers d f
          = (setPath d containersPath (.vArr ((cs.map f).map (fun r => r.1))),
             (cs.map f).any (fun r => r.2)) := by
        unfold mapContainers
        rw [hg]
      have hget1 : getPath (setPath d containersPath (.vArr ((cs.map f).map (fun r => r.1))))
          containersPath = some (.vArr ((cs.map f).map (fun r => r.1))) :=
        getPath_setPath containersPath d _ _ hg
      have hfix : ∀ x ∈ (cs.map f).map (fun r => r.1), f x = (x, false) := by
        intro x hx
        obtain ⟨pr, hpr, hx1⟩ := List.mem_map.mp hx
        obtain ⟨c, hc, hc1⟩ := List.mem_map.mp hpr
        have hPc : P c = true := by
          have := List.all_eq_true.mp hall
          simpa using this c hc
        have := hidem c hPc
        rw [← hx1, ← hc1]
        exact this
      have hmapfix : ((cs.map f).map (fun r => r.1)).map f
          = ((cs.map f).map (fun r => r.1)).map (fun x => (x, false)) :=
        List.map_congr_left hfix
      have hfst : (((cs.map f).map (fun r => r.1)).map (fun x => (x, false))).map
            (fun (r : JValue × Bool) => r.1)
          = (cs.map f).map (fun r => r.1) := by
        simp [List.map_map, Function.comp]
      have hsnd : (((cs.map f).map (fun r => r.1)).map (fun x => (x, false))).any
            (fun (r : JValue × Bool) => r.2)
          = false := by
        simp [List.any_map, Function.comp]
      have e2 : mapContainers (setPath d containersPath (.vArr ((cs.map f).map (fun r => r.1)))) f
          = (setPath d containersPath (.vArr ((cs.map f).map (fun r => r.1))), false) := by
        unfold mapContainers
        rw [hget1]
        dsimp only
        rw [hmapfix, hfst, hsnd, setPath_same containersPath _ _ hget1]
      rw [e]
      dsimp only
      rw [e2]

theorem wellShaped_parts (c : JValue) (hc : wellShapedContainer c = true) :
    isObjB c = true ∧ falsyOrObj (objGet c "securityContext") = true
      ∧ falsyOrObj (objGet c "resources") = true := by
  have h := hc
  simp only [wellShapedContainer, Bool.and_eq_true] at h
  exact ⟨h.1.1, h.1.2, h.2⟩

theorem falsyOrObj_isObj (v : JValue) (h1 : falsyOrObj (some v) = true)
    (h2 : truthy v = true) : isObjB v = true := by
  simpa [falsyOrObj, h2] using h1

theorem securityContextFix_idem (c : JValue) (hc : wellShapedContainer c = true) :
    securityContextFixContainer (securityContextFixContainer c).1
      = ((securityContextFixContainer c).1, false) := by
  have hobj := (wellShaped_parts c hc).1
  cases hsc : truthyOpt (objGet c "securityContext") with
  | true =>
    have e : securityContextFixContainer c = (c, false) := by
      unfold securityContextFixContainer
      rw [if_pos hsc]
    rw [e]
    exact e
  | false =>
    have e : securityContextFixContainer c
        = (objSet c "securityContext" defaultSecurityContext, true) := by
      unfold securityContextFixContainer
      rw [if_neg (by simp [hsc])]
    rw [e]
    dsimp only
    unfold securityContextFixContainer
    rw [if_pos (show truthyOpt
        (objGet (objSet c "securityContext" defaultSecurityContext) "securityContext") = true by
      rw [objGet_objSet_self c _ _ hobj]
      rfl)]

theorem privilegedFix_idem (c : JValue) :
    privilegedFixContainer (privilegedFixContainer c).1
      = ((privilegedFixContainer c).1, false) := by
  cases hp : truthyOpt (optChain (objGet c "securityContext") "privileged") with
  | false =>
    have e : privilegedFixContainer c = (c, false) := by
      unfold privilegedFixContainer
      rw [if_neg (by simp [hp])]
    rw [e]
    exact e
  | true =>
    cases hscget : objGet c "securityContext" with
    | none => rw [hscget] at hp; simp [optChain, truthyOpt] at hp
    | some sc =>
      rw [hscget] at hp
      cases sc with
      | vNull => simp [optChain, truthyOpt] at hp
      | vBool b => simp [optChain, objGet, truthyOpt] at hp
      | vNum n => simp [optChain, objGet, truthyOpt] at hp
      | vStr s => simp [optChain, objGet, truthyOpt] at hp
      | vArr xs => simp [optChain, objGet, truthyOpt] at hp
      | vObj scfs =>
        cases c with
        | vNull => simp [objGet] at hscget
        | vBool b => simp [objGet] at hscget
        | vNum n => simp [objGet] at hscget
        | vStr s => simp [objGet] at hscget
        | vArr xs => simp [objGet] at hscget
        | vObj cfs =>
          have hobj : isObjB (JValue.vObj cfs) = true := rfl
          have hp' : truthyOpt (objGet (JValue.vObj scfs) "privileged") = true := by
            simpa [optChain] using hp
          have e : privilegedFixContainer (JValue.vObj cfs)
              = (objSet (JValue.vObj cfs) "securityContext"
                  (objDelete (JValue.vObj scfs) "privileged"), true) := by
            unfold privilegedFixContainer
            rw [hscget]
            rw [if_pos (by simpa [optChain] using hp')]
          rw [e]
          dsimp only
          unfold privilegedFixContainer
          rw [if_neg (show ¬ truthyOpt (optChain
              (objGet (objSet (JValue.vObj cfs) "securityContext"
                (objDelete (JValue.vObj scfs) "privileged")) "securityContext") "privileged") = true by
            rw [objGet_objSet_self _ _ _ hobj]
            simp [objDelete, optChain, objGet, assocGet_objDeleteFields_self, truthyOpt])]

theorem nonRootFix_idem (c : JValue) (hc : wellShapedContainer c = true) :
    nonRootFixContainer (nonRootFixContainer c).1
      = ((nonRootFixContainer c).1, false) := by
  obtain ⟨hobj, hscShape, -⟩ := wellShaped_parts c hc
  cases hsc : truthyOpt (objGet c "securityContext") with
  | true =>
    cases hv : objGet c "securityContext" with
    | none => rw [hv] at hsc; simp [truthyOpt] at hsc
    | some v =>
      rw [hv] at hsc
      have htv : truthy v = true := by simpa [truthyOpt] using hsc
      have hvObj : isObjB v = true := falsyOrObj_isObj v (hv ▸ hscShape) htv
      cases v with
      | vNull => simp [isObjB] at hvObj
      | vBool b => simp [isObjB] at hvObj
      | vNum n => simp [isObjB] at hvObj
      | vStr s => simp [isObjB] at hvObj
      | vArr xs => simp [isObjB] at hvObj
      | vObj vfs =>
        cases hr : truthyOpt (objGet (JValue.vObj vfs) "runAsNonRoot") with
        | true =>
          have e : nonRootFixContainer c = (c, false) := by
            unfold nonRootFixContainer
            dsimp only
            rw [hv, if_pos hsc, hv]
            dsimp only
            rw [if_pos hr]
          rw [e]
          exact e
        | false =>
          have e : nonRootFixContainer c
              = (objSet c "securityContext"
                  (objSet (objSet (JValue.vObj vfs) "runAsNonRoot" (.vBool true))
                    "runAsUser" (.vNum 65534)), true) := by
            unfold nonRootFixContainer
            dsimp only
            rw [hv, if_pos hsc, hv]
            dsimp only
            rw [if_neg (by simp [hr])]
          rw [e]
          dsimp only
          unfold nonRootFixContainer
          dsimp only
          rw [objGet_objSet_self c _ _ hobj]
          rw [if_pos (show truthyOpt (some (objSet (objSet (JValue.vObj vfs) "runAsNonRoot"
            (.vBool true)) "runAsUser" (.vNum 65534))) = true from rfl)]
          rw [objGet_objSet_self c _ _ hobj]
          dsimp only
          rw [objGet_objSet_ne _ "runAsUser" "runAsNonRoot" _ (by decide),
            objGet_objSet_self (JValue.vObj vfs) "runAsNonRoot" (.vBool true) hvObj]
          rw [if_pos (show truthyOpt (some (JValue.vBool true)) = true from rfl)]
  | false =>
    have hobj1a : isObjB (objSet c "securityContext" (.vObj [])) = true := by
      rw [isObjB_objSet]
      exact hobj
    have e : nonRootFixContainer c
        = (objSet (objSet c "securityContext" (.vObj [])) "securityContext"
            (objSet (objSet (JValue.vObj []) "runAsNonRoot" (.vBool true))
              "runAsUser" (.vNum 65534)), true) := by
      unfold nonRootFixContainer
      dsimp only
      rw [if_neg (show ¬ truthyOpt (objGet c "securityContext") = true by simp [hsc])]
      rw [objGet_objSet_self c _ _ hobj]
      dsimp only
      rw [if_neg (show ¬ truthyOpt (objGet (JValue.vObj []) "runAsNonRoot") = true by decide)]
    rw [e]
    dsimp only
    unfold nonRootFixContainer
    dsimp only
    rw [objGet_objSet_self _ _ _ hobj1a]
    rw [if_pos (show truthyOpt (some (objSet (objSet (JValue.vObj []) "runAsNonRoot"
      (.vBool true)) "runAsUser" (.vNum 65534))) = true from rfl)]
    rw [objGet_objSet_self _ _ _ hobj1a]
    dsimp only
    rw [if_pos (show truthyOpt (objGet (objSet (objSet (JValue.vObj []) "runAsNonRoot"
      (.vBool true)) "runAsUser" (.vNum 65534)) "runAsNonRoot") = true by decide)]

theorem resourceLimitsFix_noop (c : JValue) (R : JValue)
    (hres : objGet c "resources" = some R) (htr : truthy R = true)
    (hlim : truthyOpt (objGet R "limits") = true)
    (hreq : truthyOpt (objGet R "requests") = true) :
    resourceLimitsFixContainer c = (c, false) := by
  unfold resourceLimitsFixContainer
  dsimp only
  rw [if_pos (show truthyOpt (objGet c "resources") = true by
    rw [hres]; simpa [truthyOpt] using htr)]
  rw [hres]
  dsimp only
  rw [if_neg (show ¬ (!truthyOpt (objGet R "limits")) = true by simp [hlim])]
  rw [hres]
  dsimp only
  rw [if_neg (show ¬ (!truthyOpt (objGet R "requests")) = true by simp [hreq])]
  simp [hlim, hreq]

theorem resourceLimitsFix_idem (c : JValue) (hc : wellShapedContainer c = true) :
    resourceLimitsFixContainer (resourceLimitsFixContainer c).1
      = ((resourceLimitsFixContainer c).1, false) := by
  obtain ⟨hobj, -, hresShape⟩ := wellShaped_parts c hc
  cases hres0 : truthyOpt (objGet c "resources") with
  | true =>
    cases hR0 : objGet c "resources" with
    | none => rw [hR0] at hres0; simp [truthyOpt] at hres0
    | some R0 =>
      rw [hR0] at hres0
      have htR0 : truthy R0 = true := by simpa [truthyOpt] using hres0
      have hR0Obj : isObjB R0 = true := falsyOrObj_isObj R0 (hR0 ▸ hresShape) htR0
      cases hl : truthyOpt (objGet R0 "limits") with
      | true =>
        cases hq : truthyOpt (objGet R0 "requests") with
        | true =>
          have e : resourceLimitsFixContainer c = (c, false) :=
            resourceLimitsFix_noop c R0 hR0 htR0 hl hq
          rw [e]
          exact e
        | false =>
          have e : resourceLimitsFixContainer c
              = (objSet c "resources" (objSet R0 "requests" defaultRequests), true) := by
            unfold resourceLimitsFixContainer
            dsimp only
            rw [if_pos (show truthyOpt (objGet c "resources") = true by
              rw [hR0]; simpa [truthyOpt] using htR0)]
            rw [hR0]
            dsimp only
            rw [if_neg (show ¬ (!truthyOpt (objGet R0 "limits")) = true by simp [hl])]
            rw [hR0]
            dsimp only
            rw [if_pos (show (!truthyOpt (objGet R0 "requests")) = true by simp [hq])]
            simp [hl, hq]
          rw [e]
          dsimp only
          exact resourceLimitsFix_noop _ (objSet R0 "requests" defaultRequests)
            (objGet_objSet_self c _ _ hobj)
            (by cases R0 <;> simp_all [isObjB, objSet, truthy])
            (by rw [objGet_objSet_ne R0 "requests" "limits" _ (by decide)]; exact hl)
            (by rw [objGet_objSet_self R0 _ _ hR0Obj]; rfl)
      | false =>
        cases hq : truthyOpt (objGet R0 "requests") with
        | true =>
          have e : resourceLimitsFixContainer c
              = (objSet c "resources" (objSet R0 "limits" defaultLimits), true) := by
            unfold resourceLimitsFixContainer
            dsimp only
            rw [if_pos (show truthyOpt (objGet c "resources") = true by
              rw [hR0]; simpa [truthyOpt] using htR0)]
            rw [hR0]
            dsimp only
            rw [if_pos (show (!truthyOpt (objGet R0 "limits")) = true by simp [hl])]
            rw [objGet_objSet_self c _ _ hobj]
            dsimp only
            rw [objGet_objSet_ne R0 "limits" "requests" _ (by decide)]
            rw [if_neg (show ¬ (!truthyOpt (objGet R0 "requests")) = true by simp [hq])]
            simp [hl, hq]
          rw [e]
          dsimp only
          exact resourceLimitsFix_noop _ (objSet R0 "limits" defaultLimits)
            (objGet_objSet_self c _ _ hobj)
            (by cases R0 <;> simp_all [isObjB, objSet, truthy])
            (by rw [objGet_objSet_self R0 _ _ hR0Obj]; rfl)
            (by rw [objGet_objSet_ne R0 "limits" "requests" _ (by decide)]; exact hq)
        | false =>
          have e : resourceLimitsFixContainer c
              = (objSet (objSet c "resources" (objSet R0 "limits" defaultLimits)) "resources"
                  (objSet (objSet R0 "limits" defaultLimits) "requests" defaultRequests), true) := by
            unfold resourceLimitsFixContainer
            dsimp only
            rw [if_pos (show truthyOpt (objGet c "resources") = true by
              rw [hR0]; simpa [truthyOpt] using htR0)]
            rw [hR0]
            dsimp only
            rw [if_pos (show (!truthyOpt (objGet R0 "limits")) = true by simp [hl])]
            rw [objGet_objSet_self c _ _ hobj]
            dsimp only
            rw [objGet_objSet_ne R0 "limits" "requests" _ (by decide)]
            rw [if_pos (show (!truthyOpt (objGet R0 "requests")) = true by simp [hq])]
            simp [hl, hq]
          rw [e]
          dsimp only
          refine resourceLimitsFix_noop _
            (objSet (objSet R0 "limits" defaultLimits) "requests" defaultRequests)
            (objGet_objSet_self _ _ _ (by rw [isObjB_objSet]; exact hobj))
            (by cases R0 <;> simp_all [isObjB, objSet, truthy])
            ?_ ?_
          · rw [objGet_objSet_ne _ "requests" "limits" _ (by decide),
              objGet_objSet_self R0 _ _ hR0Obj]
            rfl
          · rw [objGet_objSet_self _ _ _ (by rw [isObjB_objSet]; exact hR0Obj)]
            rfl
  | false =>
    have hobj1 : isObjB (objSet c "resources" (.vObj [])) = true := by
      rw [isObjB_objSet]; exact hobj
    have hobj2 : isObjB (objSet (objSet c "resources" (.vObj [])) "resources"
        (objSet (JValue.vObj []) "limits" defaultLimits)) = true := by
      rw [isObjB_objSet, isObjB_objSet]; exact hobj
    have e : resourceLimitsFixContainer c
        = (objSet (objSet (objSet c "resources" (.vObj [])) "resources"
              (objSet (JValue.vObj []) "limits" defaultLimits)) "resources"
            (objSet (objSet (JValue.vObj []) "limits" defaultLimits) "requests" defaultRequests),
           true) := by
      unfold resourceLimitsFixContainer
      dsimp only
      rw [if_neg (show ¬ truthyOpt (objGet c "resources") = true by simp [hres0])]
      rw [objGet_objSet_self c _ _ hobj]
      dsimp only
      rw [if_pos (show (!truthyOpt (objGet (JValue.vObj []) "limits")) = true by decide)]
      rw [objGet_objSet_self _ _ _ hobj1]
      dsimp only
      rw [if_pos (show (!truthyOpt (objGet (objSet (JValue.vObj []) "limits" defaultLimits)
        "requests")) = true by decide)]
      rfl
    rw [e]
    dsimp only
    exact resourceLimitsFix_noop _
      (objSet (objSet (JValue.vObj []) "limits" defaultLimits) "requests" defaultRequests)
      (objGet_objSet_self _ _ _ hobj2) (by decide) (by decide) (by decide)

theorem healthChecksFix_noop (c : JValue)
    (hl : truthyOpt (objGet c "livenessProbe") = true)
    (hr : truthyOpt (objGet c "readinessProbe") = true) :
    healthChecksFixContainer c = (c, false) := by
  unfold healthChecksFixContainer
  dsimp only
  rw [if_neg (show ¬ (!truthyOpt (objGet c "livenessProbe")) = true by simp [hl])]
  rw [if_neg (show ¬ (!truthyOpt (objGet c "readinessProbe")) = true by simp [hr])]
  simp [hl, hr]

theorem healthChecksFix_idem (c : JValue) (hc : wellShapedContainer c = true) :
    healthChecksFixContainer (healthChecksFixContainer c).1
      = ((healthChecksFixContainer c).1, false) := by
  obtain ⟨hobj, -, -⟩ := wellShaped_parts c hc
  cases hl : truthyOpt (objGet c "livenessProbe") with
  | true =>
    cases hr : truthyOpt (objGet c "readinessProbe") with
    | true =>
      have e : healthChecksFixContainer c = (c, false) := healthChecksFix_noop c hl hr
      rw [e]
      exact e
    | false =>
      have e : healthChecksFixContainer c
          = (objSet c "readinessProbe" defaultReadinessProbe, true) := by
        unfold healthChecksFixContainer
        dsimp only
        rw [if_neg (show ¬ (!truthyOpt (objGet c "livenessProbe")) = true by simp [hl])]
        rw [if_pos (show (!truthyOpt (objGet c "readinessProbe")) = true by simp [hr])]
        simp [hl, hr]
      rw [e]
      dsimp only
      exact healthChecksFix_noop _
        (by rw [objGet_objSet_ne c "readinessProbe" "livenessProbe" _ (by decide)]; exact hl)
        (by rw [objGet_objSet_self c _ _ hobj]; rfl)
  | false =>
    have hobj1 : isObjB (objSet c "livenessProbe" defaultLivenessProbe) = true := by
      rw [isObjB_objSet]; exact hobj
    cases hr : truthyOpt (objGet c "readinessProbe") with
    | true =>
      have e : healthChecksFixContainer c
          = (objSet c "livenessProbe" defaultLivenessProbe, true) := by
        unfold healthChecksFixContainer
        dsimp only
        rw [if_pos (show (!truthyOpt (objGet c "livenessProbe")) = true by simp [hl])]
        rw [objGet_objSet_ne c "livenessProbe" "readinessProbe" _ (by decide)]
        rw [if_neg (show ¬ (!truthyOpt (objGet c "readinessProbe")) = true by simp [hr])]
        simp [hl, hr]
      rw [e]
      dsimp only
      exact healthChecksFix_noop _
        (by rw [objGet_objSet_self c _ _ hobj]; rfl)
        (by rw [objGet_objSet_ne c "livenessProbe" "readinessProbe" _ (by decide)]; exact hr)
    | false =>
      have e : healthChecksFixContainer c
          = (objSet (objSet c "livenessProbe" defaultLivenessProbe) "readinessProbe"
              defaultReadinessProbe, true) := by
        unfold healthChecksFixContainer
        dsimp only
        rw [if_pos (show (!truthyOpt (objGet c "livenessProbe")) = true by simp [hl])]
        rw [objGet_objSet_ne c "livenessProbe" "readinessProbe" _ (by decide)]
        rw [if_pos (show (!truthyOpt (objGet c "readinessProbe")) = true by simp [hr])]
        simp [hl, hr]
      rw [e]
      dsimp only
      exact healthChecksFix_noop _
        (by rw [objGet_objSet_ne _ "readinessProbe" "livenessProbe" _ (by decide),
              objGet_objSet_self c _ _ hobj]
            rfl)
        (by rw [objGet_objSet_self _ _ _ hobj1]; rfl)

theorem wellShapedResource_all (d : JValue) (hws : wellShapedResource d = true) :
    ∀ cs, getPath d containersPath = some (.vArr cs) → cs.all wellShapedContainer = true := by
  intro cs hcs
  unfold wellShapedResource at hws
  rw [hcs] at hws
  exact hws

theorem addDefaultSecurityContext_idem (d : JValue) (hws : wellShapedResource d = true) :
    addDefaultSecurityContext (addDefaultSecurityContext d).1
      = ((addDefaultSecurityContext d).1, false) := by
  unfold addDefaultSecurityContext
  exact mapContainers_idem securityContextFixContainer wellShapedContainer
    securityContextFix_idem d (wellShapedResource_all d hws)

theorem removePrivilegedFlag_idem (d : JValue) (hws : wellShapedResource d = true) :
    removePrivilegedFlag (removePrivilegedFlag d).1
      = ((removePrivilegedFlag d).1, false) := by
  unfold removePrivilegedFlag
  exact mapContainers_idem privilegedFixContainer wellShapedContainer
    (fun c _ => privilegedFix_idem c) d (wellShapedResource_all d hws)

theorem setNonRootUser_idem (d : JValue) (hws : wellShapedResource d = true) :
    setNonRootUser (setNonRootUser d).1 = ((setNonRootUser d).1, false) := by
  unfold setNonRootUser
  exact mapContainers_idem nonRootFixContainer wellShapedContainer
    nonRootFix_idem d (wellShapedResource_all d hws)

theorem addDefaultResourceLimits_idem (d : JValue) (hws : wellShapedResource d = true) :
    addDefaultResourceLimits (addDefaultResourceLimits d).1
      = ((addDefaultResourceLimits d).1, false) := by
  unfold addDefaultResourceLimits
  exact mapContainers_idem resourceLimitsFixContainer wellShapedContainer
    resourceLimitsFix_idem d (wellShapedResource_all d hws)

theorem addDefaultHealthChecks_idem (d : JValue) (hws : wellShapedResource d = true) :
    addDefaultHealthChecks (addDefaultHealthChecks d).1
      = ((addDefaultHealthChecks d).1, false) := by
  unfold addDefaultHealthChecks
  exact mapContainers_idem healthChecksFixContainer wellShapedContainer
    healthChecksFix_idem d (wellShapedResource_all d hws)

/-- Claim C8: each of the five named fix routines is idempotent on resource
documents (documents whose container entries follow the resource-document
shape contract: containers are objects whose `securityContext` and
`resources` fields are absent, falsy or objects): a second application
leaves the document exactly as the first left it and reports that it made
no modification. -/
theorem fix_routines_idempotent (d : JValue) (hws : wellShapedResource d = true) :
    addDefaultSecurityContext (addDefaultSecurityContext d).1
        = ((addDefaultSecurityContext d).1, false)
    ∧ removePrivilegedFlag (removePrivilegedFlag d).1
        = ((removePrivilegedFlag d).1, false)
    ∧ setNonRootUser (setNonRootUser d).1 = ((setNonRootUser d).1, false)
    ∧ addDefaultResourceLimits (addDefaultResourceLimits d).1
        = ((addDefaultResourceLimits d).1, false)
    ∧ addDefaultHealthChecks (addDefaultHealthChecks d).1
        = ((addDefaultHealthChecks d).1, false) :=
  ⟨addDefaultSecurityContext_idem d hws, removePrivilegedFlag_idem d hws,
    setNonRootUser_idem d hws, addDefaultResourceLimits_idem d hws,
    addDefaultHealthChecks_idem d hws⟩

theorem fix_routines_idempotent_witness :
    wellShapedResource idemDoc = true
    ∧ (addDefaultSecurityContext (addDefaultSecurityContext idemDoc).1
        = ((addDefaultSecurityContext idemDoc).1, false)
      ∧ removePrivilegedFlag (removePrivilegedFlag idemDoc).1
          = ((removePrivilegedFlag idemDoc).1, false)
      ∧ setNonRootUser (setNonRootUser idemDoc).1 = ((setNonRootUser idemDoc).1, false)
      ∧ addDefaultResourceLimits (addDefaultResourceLimits idemDoc).1
          = ((addDefaultResourceLimits idemDoc).1, false)
      ∧ addDefaultHealthChecks (addDefaultHealthChecks idemDoc).1
          = ((addDefaultHealthChecks idemDoc).1, false)) :=
  ⟨by decide, fix_routines_idempotent idemDoc (by decide)⟩
